import Mathlib

/-!
Shallow embedding of `pip/operations/prepare.py`: the `RequirementPreparer`
orchestrator and the `DistAbstraction` variants, together with the small
pieces of external collaborator behaviour the orchestrator depends on.

External calls (network, filesystem, version control, the installed-package
index) are modelled by an `Env` record holding the outcome each collaborator
would produce during one `prepare_requirement` run, and by an explicit trace
of `Effect`s the orchestrator performs, in order.  Python exceptions become
an `Except` result; mutation of the requirement is explicit state passing.
-/

namespace PipPrepare

/-- URL scheme classes distinguished by `pip.download`: `is_file_url` tests
`link.scheme == 'file'`, `is_vcs_url` tests membership of the scheme in
`vcs.all_schemes` (`git+...`, `hg+...`, ...); every other scheme
(`https`, ...) is `other`. -/
inductive UrlScheme where
  | file
  | versionControl
  | other
deriving DecidableEq, Repr

/-- A resolved content location (`pip.index.Link`), reduced to the fields
`prepare.py` consults: the scheme class, `is_wheel`, whether a file URL
points at a directory (`is_dir_url`), and a hash embedded in the URL
fragment (consulted by `req.hashes` only when internet hashes are
trusted). -/
structure Link where
  scheme : UrlScheme
  is_wheel : Bool
  pointsToDirectory : Bool
  fragmentHash : Option String
deriving DecidableEq, Repr

/-- `pip.download.is_vcs_url(link)`. -/
def is_vcs_url (l : Link) : Bool :=
  match l.scheme with
  | UrlScheme.versionControl => true
  | _ => false

/-- `pip.download.is_file_url(link)`: the scheme is `file`. -/
def is_file_url (l : Link) : Bool :=
  match l.scheme with
  | UrlScheme.file => true
  | _ => false

/-- `pip.download.is_dir_url(link)`: the local path the file URL points at
is a directory. -/
def is_dir_url (l : Link) : Bool :=
  l.pointsToDirectory

/-- An installed distribution (`pkg_resources` dist), reduced to what
`prepare.py` reads: identity and whether it lives in the user site
(`pip.utils.dist_in_usersite`). -/
structure Distribution where
  project : String
  version : String
  inUsersite : Bool
deriving DecidableEq, Repr

/-- `pip.utils.dist_in_usersite(dist)`, kept abstract as a field of the
distribution record. -/
def dist_in_usersite (d : Distribution) : Bool :=
  d.inUsersite

/-- An `InstallRequirement` moving through acquisition, reduced to the
fields `prepare.py` reads or writes.  `declaredHashes` are the hashes given
for the requirement itself (`--hash` options), flattened to a digest
list. -/
structure Requirement where
  name : String
  editable : Bool
  link : Option Link
  original_link : Option Link
  is_pinned : Bool
  satisfied_by : Option Distribution
  conflicts_with : Option Distribution
  source_dir : Option String
  declaredHashes : List String
deriving DecidableEq, Repr

/-- The resolver collaborator's fields read by `prepare_requirement`. -/
structure Resolver where
  ignore_installed : Bool
  require_hashes : Bool
  upgrade_strategy : String
  use_user_site : Bool
deriving DecidableEq, Repr

/-- The `RequirementPreparer` construction-time state (`__init__`):
directories for builds, downloads, editable sources and wheel downloads. -/
structure RequirementPreparer where
  build_dir : String
  download_dir : Option String
  src_dir : String
  wheel_download_dir : Option String
deriving DecidableEq, Repr

/-- Outcomes of the external collaborator calls made during one
`prepare_requirement` run: what `_check_skip_installed` returns and sets,
the directory `ensure_has_source_dir` would pick, whether the download
directory exists, the link `populate_link` would find, whether a leftover
`setup.py` exists in the source directory, whether the transport layer
raises `requests.HTTPError` during `unpack_url`, the digest the unpack step
computes for the fetched artifact, whether the generated metadata version
matches the requirement, and what the `check_if_exists` re-check finds. -/
structure Env where
  skip_reason : Option String
  skipSatisfiedBy : Option Distribution
  newSourceDir : String
  downloadDirExists : Bool
  found_link : Option Link
  setupPyExists : Bool
  httpError : Option String
  observedDigest : String
  sourceMatchesVersion : Bool
  existingDist : Option Distribution
deriving DecidableEq, Repr

/-- The hash set handed to `unpack_url`: either the requirement's allowed
digests (`pip.utils.hashes.Hashes`; empty means no verification is done),
or the `MissingHashes` sentinel whose sole behaviour is to fail after
computing and reporting the digest it saw. -/
inductive Hashes where
  | allowed (digests : List String)
  | missingSentinel
deriving DecidableEq, Repr

/-- Errors `prepare_requirement` (or a collaborator it calls) can raise.
Mapping to the source raise sites:
`assertionError` - a failed `assert`;
`editableHashConflict` - the `InstallationError('The editable requirement
... cannot be installed when requiring hashes ...')` at the top of the
editable branch, which the spec names `EditableHashConflict`;
`missingDownloadDir` - the `InstallationError` in `_download_should_save`;
`previousBuildDir` - `PreviousBuildDirError`;
`vcsHashUnsupported`, `directoryUrlHashUnsupported`, `hashUnpinned` - the
hash-feasibility exceptions from `pip.exceptions`;
`hashMissing` / `hashMismatch` - hash-verification failures raised inside
`unpack_url`, carrying the digest that was computed;
`rawHttpError` - what an uncaught `requests.HTTPError` would look like
(never produced by the orchestrator, which wraps it);
`httpInstallationError` - the `InstallationError('Could not install
requirement %s because of HTTP error %s for URL %s')` wrapper;
`versionMismatch` - `assert_source_matches_version` failing inside
`IsSDist.prep_for_dist`;
`indexError` - `list(...)[0]` on an empty list in `IsWheel.dist`. -/
inductive PrepError where
  | assertionError (msg : String)
  | editableHashConflict (reqName : String)
  | missingDownloadDir (dir : String)
  | previousBuildDir (reqName : String) (dir : String)
  | vcsHashUnsupported
  | directoryUrlHashUnsupported
  | hashUnpinned
  | hashMissing (gotDigest : String)
  | hashMismatch (gotDigest : String)
  | rawHttpError (exc : String)
  | httpInstallationError (reqName : String) (exc : String) (url : Link)
  | versionMismatch (reqName : String)
  | indexError
deriving DecidableEq, Repr

/-- Externally visible actions the orchestrator performs, in order:
directory creation (`ensure_has_source_dir`, with the root it was given),
the editable checkout-or-update (`update_editable`, with its `obtain`
argument), link population (`populate_link`), the unpack/download call
(`unpack_url`, with the link, resolved download directory, the
`autodelete_unpacked` flag and the hash set it was given), metadata
generation (`run_egg_info`), archiving (`req.archive`), the installed-state
re-check (`check_if_exists`), and directory deletion (`deleteDir`, which
the source never performs). -/
inductive Effect where
  | ensureSourceDir (root : String)
  | updateEditable (obtain : Bool)
  | populateLink
  | unpack (link : Link) (download_dir : Option String)
      (autodelete_unpacked : Bool) (hashes : Hashes)
  | runEggInfo
  | archive (dir : String)
  | checkIfExists
  | deleteDir (path : String)
deriving DecidableEq, Repr

/-- The three `DistAbstraction` variants of `prepare.py`. -/
inductive DistAbstraction where
  | IsWheel
  | IsSDist
  | Installed
deriving DecidableEq, Repr

/-- `make_abstract_dist(req)`: editable requirements and plain source trees
give `IsSDist`; a non-editable requirement with a wheel link gives
`IsWheel`. -/
def make_abstract_dist (req : Requirement) : DistAbstraction :=
  if req.editable then DistAbstraction.IsSDist
  else if (match req.link with
           | some l => l.is_wheel
           | none => false) then DistAbstraction.IsWheel
  else DistAbstraction.IsSDist

instance : DecidableEq (Except PrepError DistAbstraction) := fun a b =>
  match a, b with
  | Except.ok x, Except.ok y =>
      if h : x = y then isTrue (by rw [h]) else isFalse (by simp [h])
  | Except.error x, Except.error y =>
      if h : x = y then isTrue (by rw [h]) else isFalse (by simp [h])
  | Except.ok _, Except.error _ => isFalse (by simp)
  | Except.error _, Except.ok _ => isFalse (by simp)

/-- The outcome of one `prepare_requirement` run: the returned abstraction
or the exception, the final requirement state, and the trace of external
effects performed (also when an exception was raised part-way). -/
structure PrepResult where
  result : Except PrepError DistAbstraction
  req : Requirement
  effects : List Effect
deriving DecidableEq, Repr

/-- Modelled from the spec: `InstallRequirement.ensure_has_source_dir`
(pip/req/req_install.py, not under src/) assigns a source directory under
the given root when none is set yet ("Ensure a build directory exists for
the requirement").  The freshly chosen directory is supplied by the
environment. -/
def ensure_has_source_dir (req : Requirement) (env : Env) : Requirement :=
  match req.source_dir with
  | some _ => req
  | none => { req with source_dir := some env.newSourceDir }

/-- `RequirementPreparer._download_should_save`: true when a download
directory is configured and exists; raises `InstallationError` when it is
configured but cannot be found; false when none is configured. -/
def download_should_save (self : RequirementPreparer) (env : Env) :
    Except PrepError Bool :=
  match self.download_dir with
  | some d =>
      if env.downloadDirExists then Except.ok true
      else Except.error (PrepError.missingDownloadDir d)
  | none => Except.ok false

/-- Modelled from the spec: `InstallRequirement.hashes(trust_internet)`
(pip/req/req_install.py, not under src/) "collects all hash entries
declared on the requirement; if `trust_internet` is true, also accepts
hashes embedded in the chosen link's fragment/metadata (lower trust
source); otherwise only explicit user-declared hashes count". -/
def req_hashes (req : Requirement) (trust_internet : Bool) : List String :=
  req.declaredHashes ++
    (if trust_internet then
       match req.link with
       | some l =>
           match l.fragmentHash with
           | some h => [h]
           | none => []
       | none => []
     else [])

/-- A failure inside the `unpack_url` collaborator: a transport-layer
`requests.HTTPError`, or a hash-verification failure carrying the digest
that was computed. -/
inductive UnpackFailure where
  | http (exc : String)
  | hashCheckMissing (digest : String)
  | hashCheckMismatch (digest : String)
deriving DecidableEq, Repr

/-- Modelled from the spec: the `unpack_url` collaborator
(pip/download.py, not under src/).  The transport layer may fail with
`requests.HTTPError`; otherwise the fetched artifact's digest is checked
against the supplied hash set: an empty allowed set performs no check, a
non-empty one succeeds exactly when the computed digest is a member, and
the `MissingHashes` sentinel's "sole behavior is to fail after computing
and reporting the digest it saw". -/
def unpack_url (hashes : Hashes) (env : Env) : Except UnpackFailure Unit :=
  match env.httpError with
  | some e => Except.error (UnpackFailure.http e)
  | none =>
      match hashes with
      | Hashes.missingSentinel =>
          Except.error (UnpackFailure.hashCheckMissing env.observedDigest)
      | Hashes.allowed [] => Except.ok ()
      | Hashes.allowed ds =>
          if env.observedDigest ∈ ds then Except.ok ()
          else Except.error (UnpackFailure.hashCheckMismatch env.observedDigest)

/-- The `prep_for_dist` step of a `DistAbstraction`: `IsWheel.prep_for_dist`
and `Installed.prep_for_dist` are no-ops; `IsSDist.prep_for_dist` runs
`run_egg_info` and then `assert_source_matches_version` (modelled from the
spec: both live in pip/req/req_install.py, not under src/; the assertion
fails when the generated metadata's version does not match the
requirement).  Returns the effects performed and the error, if any. -/
def prep_for_dist (dist : DistAbstraction) (req : Requirement) (env : Env) :
    List Effect × Option PrepError :=
  match dist with
  | DistAbstraction.IsWheel => ([], none)
  | DistAbstraction.Installed => ([], none)
  | DistAbstraction.IsSDist =>
      ([Effect.runEggInfo],
       if env.sourceMatchesVersion then none
       else some (PrepError.versionMismatch req.name))

/-- `IsWheel.dist`: `list(pkg_resources.find_distributions(source_dir))[0]`
over the distributions found in the unpacked wheel directory (supplied
here as the list the finder would produce); indexing an empty list raises
`IndexError`. -/
def isWheelDist (found : List Distribution) : Except PrepError Distribution :=
  match found with
  | [] => Except.error PrepError.indexError
  | d :: _ => Except.ok d

/-- The editable branch of `prepare_requirement` (lines 187-199): fail
under `require_hashes`, otherwise ensure a source directory under
`src_dir`, run `update_editable(not download_should_save)`, build the
abstraction and run its `prep_for_dist`, archive when retention is
configured, and re-run `check_if_exists`. -/
def prepare_editable (self : RequirementPreparer) (resolver : Resolver)
    (env : Env) (req : Requirement) : PrepResult :=
  if resolver.require_hashes then
    ⟨Except.error (PrepError.editableHashConflict req.name), req, []⟩
  else
    let req1 := ensure_has_source_dir req env
    let effs1 := [Effect.ensureSourceDir self.src_dir]
    match download_should_save self env with
    | Except.error e => ⟨Except.error e, req1, effs1⟩
    | Except.ok dss =>
        let effs2 := effs1 ++ [Effect.updateEditable (!dss)]
        let adist := make_abstract_dist req1
        let pe := prep_for_dist adist req1 env
        match pe.2 with
        | some e => ⟨Except.error e, req1, effs2 ++ pe.1⟩
        | none =>
            let effs3 := effs2 ++ pe.1 ++
              (if dss then
                 match self.download_dir with
                 | some d => [Effect.archive d]
                 | none => []
               else [])
            ⟨Except.ok adist, { req1 with satisfied_by := env.existingDist },
             effs3 ++ [Effect.checkIfExists]⟩

/-- The effective hash set of the fresh-acquisition branch (lines
269-276): `req.hashes(trust_internet=not resolver.require_hashes)`,
replaced by the `MissingHashes` sentinel when verification is mandatory
and the resulting set is empty. -/
def effective_hashes (resolver : Resolver) (req3 : Requirement) : Hashes :=
  let hashList := req_hashes req3 (!resolver.require_hashes)
  if resolver.require_hashes && hashList.isEmpty then Hashes.missingSentinel
  else Hashes.allowed hashList

/-- The download destination the destination/retention step (lines
278-295) resolves for a link: a wheel with a configured wheel-download
directory goes there, everything else to the general download
directory. -/
def resolved_download_dir (self : RequirementPreparer) (l : Link) :
    Option String :=
  if l.is_wheel && self.wheel_download_dir.isSome then self.wheel_download_dir
  else self.download_dir

/-- The `autodelete_unpacked` flag the destination/retention step (lines
280-295) resolves for a link: for a wheel, delete the unpacked tree
exactly when some download directory was resolved (downloading for
caching); for an sdist it is always true. -/
def resolved_autodelete (self : RequirementPreparer) (l : Link) : Bool :=
  if l.is_wheel then (resolved_download_dir self l).isSome else true

/-- The steps of the fresh-acquisition branch after a successful
`unpack_url` (lines 313-342): build the abstraction and run its
`prep_for_dist`, archive version-control checkouts when retention is
configured, re-check installed state unless installed packages are
ignored, and resolve conflicts.  The effect list is relative to the
unpack point. -/
def fresh_post_unpack (self : RequirementPreparer) (resolver : Resolver)
    (env : Env) (req3 : Requirement) (link : Link) : PrepResult :=
  let adist := make_abstract_dist req3
  let pe := prep_for_dist adist req3 env
  match pe.2 with
  | some e => ⟨Except.error e, req3, pe.1⟩
  | none =>
      match download_should_save self env with
      | Except.error e => ⟨Except.error e, req3, pe.1⟩
      | Except.ok dss =>
          let effsA := pe.1 ++
            (if dss && is_vcs_url link then
               match self.download_dir with
               | some d => [Effect.archive d]
               | none => []
             else [])
          let req4 :=
            if resolver.ignore_installed then req3
            else { req3 with satisfied_by := env.existingDist }
          let effsB := effsA ++
            (if resolver.ignore_installed then []
             else [Effect.checkIfExists])
          match req4.satisfied_by with
          | none => ⟨Except.ok adist, req4, effsB⟩
          | some d =>
              let should_modify :=
                (resolver.upgrade_strategy != "to-satisfy-only") ||
                  resolver.ignore_installed
              if should_modify then
                if resolver.use_user_site && !(dist_in_usersite d) then
                  ⟨Except.ok adist, { req4 with satisfied_by := none }, effsB⟩
                else
                  ⟨Except.ok adist,
                   { req4 with
                      conflicts_with := some d
                      satisfied_by := none }, effsB⟩
              else
                ⟨Except.ok adist, req4, effsB⟩

/-- The unpack stage of the fresh-acquisition branch (lines 269-312, with
the tail in `fresh_post_unpack`): compute the effective hash set, resolve
the download destination and the `autodelete_unpacked` flag, call
`unpack_url` (wrapping HTTP errors into `InstallationError`), then run the
post-unpack steps.  `req3` is the requirement with its link populated; the
effect list includes the whole trace of the branch. -/
def unpack_stage (self : RequirementPreparer) (resolver : Resolver)
    (env : Env) (req3 : Requirement) (link : Link) : PrepResult :=
  let hashes := effective_hashes resolver req3
  let effs3 := [Effect.ensureSourceDir self.build_dir, Effect.populateLink,
    Effect.unpack link (resolved_download_dir self link)
      (resolved_autodelete self link) hashes]
  let post : PrepResult :=
    match unpack_url hashes env with
    | Except.error (UnpackFailure.http e) =>
        ⟨Except.error (PrepError.httpInstallationError req3.name e link),
         req3, []⟩
    | Except.error (UnpackFailure.hashCheckMissing d) =>
        ⟨Except.error (PrepError.hashMissing d), req3, []⟩
    | Except.error (UnpackFailure.hashCheckMismatch d) =>
        ⟨Except.error (PrepError.hashMismatch d), req3, []⟩
    | Except.ok _ => fresh_post_unpack self resolver env req3 link
  ⟨post.result, post.req, effs3 ++ post.effects⟩

/-- The fresh-acquisition branch of `prepare_requirement` (lines 208-342):
ensure a source directory under `build_dir`, guard against a leftover
`setup.py`, populate the link, run the hash-feasibility checks, and
continue with the unpack stage. -/
def prepare_fresh (self : RequirementPreparer) (resolver : Resolver)
    (env : Env) (req1 : Requirement) : PrepResult :=
  let req2 := ensure_has_source_dir req1 env
  let effs1 := [Effect.ensureSourceDir self.build_dir]
  if env.setupPyExists then
    ⟨Except.error (PrepError.previousBuildDir req2.name
        (req2.source_dir.getD "")), req2, effs1⟩
  else
    let req3 := { req2 with link :=
      match req2.link with
      | some l => some l
      | none => env.found_link }
    let effs2 := effs1 ++ [Effect.populateLink]
    match req3.link with
    | none => ⟨Except.error (PrepError.assertionError "req.link"), req3, effs2⟩
    | some link =>
        if resolver.require_hashes && is_vcs_url link then
          ⟨Except.error PrepError.vcsHashUnsupported, req3, effs2⟩
        else if resolver.require_hashes && is_file_url link &&
            is_dir_url link then
          ⟨Except.error PrepError.directoryUrlHashUnsupported, req3, effs2⟩
        else if resolver.require_hashes && req3.original_link.isNone &&
            !req3.is_pinned then
          ⟨Except.error PrepError.hashUnpinned, req3, effs2⟩
        else
          unpack_stage self resolver env req3 link

/-- `RequirementPreparer.prepare_requirement(req, resolver)`: the preamble
(lines 154-181: the `satisfied_by is None` assertion, the
`_check_skip_installed` call when installed packages are not ignored, and
the skip-reason assertion), then exactly one of the three branches:
editable, already satisfied (`Installed`), or fresh acquisition. -/
def prepare_requirement (self : RequirementPreparer) (resolver : Resolver)
    (env : Env) (req : Requirement) : PrepResult :=
  if req.editable then
    prepare_editable self resolver env req
  else
    match req.satisfied_by with
    | some _ =>
        ⟨Except.error (PrepError.assertionError "satisfied_by must be None"),
         req, []⟩
    | none =>
        let skip_reason : Option String :=
          if resolver.ignore_installed then none else env.skip_reason
        let req1 : Requirement :=
          if resolver.ignore_installed then req
          else { req with satisfied_by := env.skipSatisfiedBy }
        match req1.satisfied_by, skip_reason with
        | some _, none =>
            ⟨Except.error (PrepError.assertionError
                "check_skip_installed returned None"), req1, []⟩
        | some _, some _ =>
            ⟨Except.ok DistAbstraction.Installed, req1, []⟩
        | none, _ => prepare_fresh self resolver env req1

/-! Sample concrete inputs, used by the witnesses below. -/

/-- A plain https sdist link. -/
def sdistLink : Link := ⟨UrlScheme.other, false, false, none⟩

/-- A version-control link. -/
def sampleVcsLink : Link := ⟨UrlScheme.versionControl, false, false, none⟩

/-- A file URL pointing at a directory. -/
def sampleDirLink : Link := ⟨UrlScheme.file, false, true, none⟩

/-- An https wheel link. -/
def sampleWheelLink : Link := ⟨UrlScheme.other, true, false, none⟩

/-- A preparer with no download directories configured. -/
def samplePreparer : RequirementPreparer := ⟨"build", none, "srcroot", none⟩

/-- A resolver with everything off and the default upgrade strategy. -/
def sampleResolver : Resolver := ⟨false, false, "to-satisfy-only", false⟩

/-- An environment where every collaborator call succeeds and finds
nothing installed; `populate_link` finds the sdist link. -/
def sampleEnv : Env :=
  ⟨none, none, "builddir", false, some sdistLink, false, none, "d1", true, none⟩

/-- A pinned requirement with an original link and no declared hashes. -/
def sampleReq : Requirement :=
  ⟨"pkg", false, none, some sdistLink, true, none, none, none, []⟩

/-- The sdist link with a hash embedded in its URL fragment. -/
def fragLink : Link := { sdistLink with fragmentHash := some "fh" }

/-- The sample environment finding the fragment-hash link. -/
def fragEnv : Env := { sampleEnv with found_link := some fragLink }

/-- A system-wide (non-usersite) installed distribution. -/
def sampleDist : Distribution := ⟨"pkg", "1.0", false⟩

/-- A preparer with a general download directory configured. -/
def dlPreparer : RequirementPreparer := ⟨"build", some "dl", "srcroot", none⟩

/-- The sample environment where the download directory exists (retention
is requested and honoured). -/
def dlEnv : Env := { sampleEnv with downloadDirExists := true }

/-! Theorems settling the claims. -/

/-- C3: for every editable requirement prepared with `require_hashes =
true`, `prepare_requirement` fails with the editable-hash conflict error
(the spec's `EditableHashConflict`), with the requirement unchanged and an
empty effect trace — so before any source-directory creation,
version-control operation, or network access occurs. -/
theorem c3_editable_hash_conflict_before_any_effect
    (self : RequirementPreparer) (resolver : Resolver) (env : Env)
    (req : Requirement)
    (hed : req.editable = true) (hrh : resolver.require_hashes = true) :
    prepare_requirement self resolver env req =
      ⟨Except.error (PrepError.editableHashConflict req.name), req, []⟩ := by
  simp [prepare_requirement, prepare_editable, hed, hrh]

/-- Witness for C3 at a concrete editable requirement. -/
theorem c3_witness :
    ({ sampleReq with editable := true } : Requirement).editable = true ∧
    ({ sampleResolver with require_hashes := true } : Resolver).require_hashes
      = true ∧
    prepare_requirement samplePreparer
        { sampleResolver with require_hashes := true } sampleEnv
        { sampleReq with editable := true } =
      ⟨Except.error (PrepError.editableHashConflict "pkg"),
       { sampleReq with editable := true }, []⟩ :=
  ⟨rfl, rfl,
   c3_editable_hash_conflict_before_any_effect samplePreparer
     { sampleResolver with require_hashes := true } sampleEnv
     { sampleReq with editable := true } rfl rfl⟩

/-- On the fresh-acquisition path (non-editable, not already satisfied, and
the skip check finds nothing), `prepare_requirement` behaves exactly as its
fresh-acquisition branch. -/
theorem prepare_requirement_fresh (self : RequirementPreparer)
    (resolver : Resolver) (env : Env) (req : Requirement)
    (hed : req.editable = false) (hsb : req.satisfied_by = none)
    (hskip : env.skipSatisfiedBy = none) :
    prepare_requirement self resolver env req =
      prepare_fresh self resolver env req := by
  obtain ⟨n, ed, lk, ol, pin, sb, cw, sd, dh⟩ := req
  obtain ⟨ii, rh, us, uus⟩ := resolver
  simp only at hed hsb
  subst hed hsb
  cases ii <;> simp [prepare_requirement, hskip]

/-- C8: for every non-editable, not-already-satisfied requirement whose
build/source directory already contains a leftover `setup.py`,
`prepare_requirement` fails with `PreviousBuildDirError`; the only effect
performed is the source-directory setup under `build_dir` — in particular
the link is not populated, no unpack/network call happens, and the
directory is not deleted. -/
theorem c8_previous_build_dir_guard
    (self : RequirementPreparer) (resolver : Resolver) (env : Env)
    (req : Requirement)
    (hed : req.editable = false) (hsb : req.satisfied_by = none)
    (hskip : env.skipSatisfiedBy = none)
    (hsetup : env.setupPyExists = true) :
    (prepare_requirement self resolver env req).result =
        Except.error (PrepError.previousBuildDir req.name
          (req.source_dir.getD env.newSourceDir)) ∧
    (prepare_requirement self resolver env req).effects =
        [Effect.ensureSourceDir self.build_dir] ∧
    Effect.populateLink ∉ (prepare_requirement self resolver env req).effects ∧
    (∀ l dd ad h, Effect.unpack l dd ad h ∉
        (prepare_requirement self resolver env req).effects) ∧
    (∀ p, Effect.deleteDir p ∉
        (prepare_requirement self resolver env req).effects) := by
  obtain ⟨ii, rh, us, uus⟩ := resolver
  cases ii <;> cases hsd : req.source_dir <;>
    simp [prepare_requirement, prepare_fresh, ensure_has_source_dir, hed,
      hsb, hskip, hsetup, hsd]

/-- Witness for C8 at a concrete requirement with a leftover `setup.py`. -/
theorem c8_witness :
    sampleReq.editable = false ∧ sampleReq.satisfied_by = none ∧
    ({ sampleEnv with setupPyExists := true } : Env).skipSatisfiedBy = none ∧
    ({ sampleEnv with setupPyExists := true } : Env).setupPyExists = true ∧
    ((prepare_requirement samplePreparer sampleResolver
        { sampleEnv with setupPyExists := true } sampleReq).result =
      Except.error (PrepError.previousBuildDir "pkg" "builddir") ∧
     (prepare_requirement samplePreparer sampleResolver
        { sampleEnv with setupPyExists := true } sampleReq).effects =
      [Effect.ensureSourceDir "build"] ∧
     Effect.populateLink ∉ (prepare_requirement samplePreparer sampleResolver
        { sampleEnv with setupPyExists := true } sampleReq).effects) :=
  ⟨rfl, rfl, rfl, rfl,
   (c8_previous_build_dir_guard samplePreparer sampleResolver
     { sampleEnv with setupPyExists := true } sampleReq rfl rfl rfl rfl).1,
   (c8_previous_build_dir_guard samplePreparer sampleResolver
     { sampleEnv with setupPyExists := true } sampleReq rfl rfl rfl rfl).2.1,
   (c8_previous_build_dir_guard samplePreparer sampleResolver
     { sampleEnv with setupPyExists := true } sampleReq rfl rfl rfl rfl).2.2.1⟩

/-- The `prep_for_dist` step reports an error exactly for a source tree
whose generated metadata version does not match the requirement. -/
theorem prep_for_dist_snd_some (dist : DistAbstraction) (req : Requirement)
    (env : Env) (e : PrepError) :
    (prep_for_dist dist req env).2 = some e ↔
      (dist = DistAbstraction.IsSDist ∧ env.sourceMatchesVersion = false ∧
       e = PrepError.versionMismatch req.name) := by
  cases dist <;> simp [prep_for_dist]
  exact fun _ => ⟨fun h => h.symm, fun h => h.symm⟩

/-- `_download_should_save` raises exactly when a download directory is
configured but does not exist. -/
theorem download_should_save_error (self : RequirementPreparer) (env : Env)
    (e : PrepError) :
    download_should_save self env = Except.error e ↔
      (self.download_dir.isSome = true ∧ env.downloadDirExists = false ∧
        e = PrepError.missingDownloadDir (self.download_dir.getD "")) := by
  obtain ⟨bd, dd, sd, wd⟩ := self
  cases dd <;> simp [download_should_save]
  split <;> simp_all
  exact ⟨fun h => h.symm, fun h => h.symm⟩

set_option maxHeartbeats 2000000

/-- The post-unpack steps never raise any of the three hash-feasibility
errors: the only errors they produce are the version mismatch from
`prep_for_dist` and the missing download directory. -/
theorem fresh_post_unpack_no_feasibility_error (self : RequirementPreparer)
    (resolver : Resolver) (env : Env) (req3 : Requirement) (link : Link) :
    (fresh_post_unpack self resolver env req3 link).result ≠
        Except.error PrepError.vcsHashUnsupported ∧
    (fresh_post_unpack self resolver env req3 link).result ≠
        Except.error PrepError.directoryUrlHashUnsupported ∧
    (fresh_post_unpack self resolver env req3 link).result ≠
        Except.error PrepError.hashUnpinned := by
  simp only [fresh_post_unpack]
  repeat' split
  all_goals simp_all [prep_for_dist_snd_some, download_should_save_error]

/-- The unpack stage never raises any of the three hash-feasibility
errors: its failures are the wrapped HTTP error, the two hash-check
failures, and whatever the post-unpack steps produce. -/
theorem unpack_stage_no_feasibility_error (self : RequirementPreparer)
    (resolver : Resolver) (env : Env) (req3 : Requirement) (link : Link) :
    (unpack_stage self resolver env req3 link).result ≠
        Except.error PrepError.vcsHashUnsupported ∧
    (unpack_stage self resolver env req3 link).result ≠
        Except.error PrepError.directoryUrlHashUnsupported ∧
    (unpack_stage self resolver env req3 link).result ≠
        Except.error PrepError.hashUnpinned := by
  have hpost :=
    fresh_post_unpack_no_feasibility_error self resolver env req3 link
  simp only [unpack_stage]
  repeat' split
  all_goals simp_all

/-- The fresh-acquisition branch never raises any of the three
hash-feasibility errors when `require_hashes` is false: each of their
raise sites is guarded by `resolver.require_hashes`. -/
theorem prepare_fresh_no_feasibility_error (self : RequirementPreparer)
    (resolver : Resolver) (env : Env) (req : Requirement)
    (hrh : resolver.require_hashes = false) :
    (prepare_fresh self resolver env req).result ≠
        Except.error PrepError.vcsHashUnsupported ∧
    (prepare_fresh self resolver env req).result ≠
        Except.error PrepError.directoryUrlHashUnsupported ∧
    (prepare_fresh self resolver env req).result ≠
        Except.error PrepError.hashUnpinned := by
  have hstage := fun r3 l =>
    unpack_stage_no_feasibility_error self resolver env r3 l
  obtain ⟨ii, rh, us, uus⟩ := resolver
  simp only at hrh
  subst hrh
  simp only [prepare_fresh]
  repeat' split
  all_goals
    simp_all [fun r3 l => (hstage r3 l).1, fun r3 l => (hstage r3 l).2.1,
      fun r3 l => (hstage r3 l).2.2]

/-- C1: on the fresh-acquisition path with `require_hashes = true`, after
the link is populated the hash-feasibility checks run in this fixed order,
first match winning: a version-control link fails with
`VcsHashUnsupported`; otherwise a local-file link pointing at a directory
fails with `DirectoryUrlHashUnsupported`; otherwise a requirement with no
`original_link` and not pinned fails with `HashUnpinned`.  When
`require_hashes = false`, none of these three errors can be raised. -/
theorem c1_hash_feasibility_check_order
    (self : RequirementPreparer) (resolver : Resolver) (env : Env)
    (req : Requirement) (l : Link)
    (hed : req.editable = false) (hsb : req.satisfied_by = none)
    (hskip : env.skipSatisfiedBy = none)
    (hsetup : env.setupPyExists = false)
    (hlink : req.link = none) (hfound : env.found_link = some l) :
    (resolver.require_hashes = true →
      ((is_vcs_url l = true →
        (prepare_requirement self resolver env req).result =
          Except.error PrepError.vcsHashUnsupported) ∧
       (is_vcs_url l = false → (is_file_url l && is_dir_url l) = true →
        (prepare_requirement self resolver env req).result =
          Except.error PrepError.directoryUrlHashUnsupported) ∧
       (is_vcs_url l = false → (is_file_url l && is_dir_url l) = false →
        req.original_link = none → req.is_pinned = false →
        (prepare_requirement self resolver env req).result =
          Except.error PrepError.hashUnpinned))) ∧
    (resolver.require_hashes = false →
      ((prepare_requirement self resolver env req).result ≠
          Except.error PrepError.vcsHashUnsupported ∧
       (prepare_requirement self resolver env req).result ≠
          Except.error PrepError.directoryUrlHashUnsupported ∧
       (prepare_requirement self resolver env req).result ≠
          Except.error PrepError.hashUnpinned)) := by
  rw [prepare_requirement_fresh self resolver env req hed hsb hskip]
  constructor
  · intro hrh
    refine ⟨?_, ?_, ?_⟩
    · intro hv
      cases hsd : req.source_dir <;>
        simp [prepare_fresh, ensure_has_source_dir, hsetup, hlink, hfound,
          hrh, hv, hsd]
    · intro hv hfd
      cases hsd : req.source_dir <;>
        simp [prepare_fresh, ensure_has_source_dir, hsetup, hlink, hfound,
          hrh, hv, hfd, hsd]
    · intro hv hfd ho hp
      cases hsd : req.source_dir <;>
        simp [prepare_fresh, ensure_has_source_dir, hsetup, hlink, hfound,
          hrh, hv, hfd, ho, hp, hsd]
  · intro hrh
    exact prepare_fresh_no_feasibility_error self resolver env req hrh

/-- Witness for C1 at a concrete requirement whose populated link is a
version-control URL under mandatory hashes. -/
theorem c1_witness :
    sampleReq.editable = false ∧ sampleReq.satisfied_by = none ∧
    sampleReq.link = none ∧
    ({ sampleEnv with found_link := some sampleVcsLink } : Env).found_link =
      some sampleVcsLink ∧
    is_vcs_url sampleVcsLink = true ∧
    (prepare_requirement samplePreparer
        { sampleResolver with require_hashes := true }
        { sampleEnv with found_link := some sampleVcsLink }
        sampleReq).result = Except.error PrepError.vcsHashUnsupported :=
  ⟨rfl, rfl, rfl, rfl, rfl,
   ((c1_hash_feasibility_check_order samplePreparer
       { sampleResolver with require_hashes := true }
       { sampleEnv with found_link := some sampleVcsLink }
       sampleReq sampleVcsLink rfl rfl rfl rfl rfl rfl).1 rfl).1 rfl⟩

/-- C2: with `require_hashes = true`, a requirement whose effective hash
set is empty after the feasibility checks pass (no declared hashes, and an
`original_link` or a pinned version) does not fail at the hash-computation
point: the `MissingHashes` sentinel is substituted, the unpack step is
reached (an unpack effect carrying the sentinel is in the trace), and the
failure is raised only there, naming the computed digest. -/
theorem c2_missing_hashes_deferred_to_unpack
    (self : RequirementPreparer) (resolver : Resolver) (env : Env)
    (req : Requirement) (l : Link)
    (hed : req.editable = false) (hsb : req.satisfied_by = none)
    (hskip : env.skipSatisfiedBy = none)
    (hsetup : env.setupPyExists = false)
    (hlink : req.link = none) (hfound : env.found_link = some l)
    (hrh : resolver.require_hashes = true)
    (hv : is_vcs_url l = false)
    (hfd : (is_file_url l && is_dir_url l) = false)
    (hpin : req.original_link.isSome = true ∨ req.is_pinned = true)
    (hdecl : req.declaredHashes = [])
    (hhttp : env.httpError = none) :
    (prepare_requirement self resolver env req).result =
        Except.error (PrepError.hashMissing env.observedDigest) ∧
    (∃ dd ad, Effect.unpack l dd ad Hashes.missingSentinel ∈
        (prepare_requirement self resolver env req).effects) := by
  rw [prepare_requirement_fresh self resolver env req hed hsb hskip]
  have hcond : ¬(req.original_link = none ∧ req.is_pinned = false) := by
    rintro ⟨h1, h2⟩
    rcases hpin with ho | hp
    · rw [h1] at ho
      simp at ho
    · rw [hp] at h2
      cases h2
  cases hsd : req.source_dir <;>
    simp [prepare_fresh, unpack_stage, ensure_has_source_dir, req_hashes,
      unpack_url, effective_hashes, hsetup, hlink, hfound, hrh, hv, hfd,
      hdecl, hhttp, hsd, hcond]

/-- Witness for C2 at a concrete pinned requirement with an original link
and no declared hashes. -/
theorem c2_witness :
    sampleReq.declaredHashes = [] ∧ sampleReq.is_pinned = true ∧
    (prepare_requirement samplePreparer
        { sampleResolver with require_hashes := true } sampleEnv
        sampleReq).result =
      Except.error (PrepError.hashMissing "d1") :=
  ⟨rfl, rfl,
   (c2_missing_hashes_deferred_to_unpack samplePreparer
     { sampleResolver with require_hashes := true } sampleEnv sampleReq
     sdistLink rfl rfl rfl rfl rfl rfl rfl rfl rfl (Or.inr rfl) rfl rfl).1⟩

/-- C6: whenever the unpack/download collaborator raises a transport-layer
failure (`requests.HTTPError`) during `prepare_requirement`, it is caught
and re-raised as the user-facing `InstallationError` naming the
requirement, the underlying error, and the URL; the raw transport
exception never propagates out. -/
theorem c6_transport_error_wrapped
    (self : RequirementPreparer) (resolver : Resolver) (env : Env)
    (req : Requirement) (l : Link) (e : String)
    (hed : req.editable = false) (hsb : req.satisfied_by = none)
    (hskip : env.skipSatisfiedBy = none)
    (hsetup : env.setupPyExists = false)
    (hlink : req.link = none) (hfound : env.found_link = some l)
    (hno1 : (resolver.require_hashes && is_vcs_url l) = false)
    (hno2 : (resolver.require_hashes &&
      (is_file_url l && is_dir_url l)) = false)
    (hno3 : (resolver.require_hashes && req.original_link.isNone &&
      !req.is_pinned) = false)
    (hhttp : env.httpError = some e) :
    (prepare_requirement self resolver env req).result =
        Except.error (PrepError.httpInstallationError req.name e l) ∧
    (∀ x, (prepare_requirement self resolver env req).result ≠
        Except.error (PrepError.rawHttpError x)) := by
  rw [prepare_requirement_fresh self resolver env req hed hsb hskip]
  obtain ⟨ii, rh, us, uus⟩ := resolver
  cases rh <;> cases hsd : req.source_dir <;>
    cases hol : req.original_link <;> cases hp : req.is_pinned <;>
    cases hfu : is_file_url l <;>
    simp_all [prepare_fresh, unpack_stage, ensure_has_source_dir,
      unpack_url, effective_hashes]

/-- Witness for C6 at a concrete requirement whose download raises an
HTTP error. -/
theorem c6_witness :
    ({ sampleEnv with httpError := some "503" } : Env).httpError =
      some "503" ∧
    (prepare_requirement samplePreparer sampleResolver
        { sampleEnv with httpError := some "503" } sampleReq).result =
      Except.error (PrepError.httpInstallationError "pkg" "503" sdistLink) :=
  ⟨rfl,
   (c6_transport_error_wrapped samplePreparer sampleResolver
     { sampleEnv with httpError := some "503" } sampleReq sdistLink "503"
     rfl rfl rfl rfl rfl rfl rfl rfl rfl rfl).1⟩

/-- With `trust_internet = false`, `req.hashes` consists of the declared
hashes only. -/
theorem req_hashes_false (req : Requirement) :
    req_hashes req false = req.declaredHashes := by
  simp [req_hashes]

/-- When verification is not mandatory, the effective hash set is
`req.hashes(trust_internet=True)`. -/
theorem effective_hashes_not_required (resolver : Resolver)
    (req3 : Requirement) (h : resolver.require_hashes = false) :
    effective_hashes resolver req3 =
      Hashes.allowed (req_hashes req3 true) := by
  simp [effective_hashes, h]

/-- When verification is mandatory and no hashes are declared, the
effective hash set is the `MissingHashes` sentinel. -/
theorem effective_hashes_required_empty (resolver : Resolver)
    (req3 : Requirement) (h : resolver.require_hashes = true)
    (h2 : req3.declaredHashes = []) :
    effective_hashes resolver req3 = Hashes.missingSentinel := by
  simp [effective_hashes, req_hashes, h, h2]

/-- When verification is mandatory and hashes are declared, the effective
hash set is exactly the declared hashes. -/
theorem effective_hashes_required_nonempty (resolver : Resolver)
    (req3 : Requirement) (h : resolver.require_hashes = true)
    (h2 : req3.declaredHashes ≠ []) :
    effective_hashes resolver req3 =
      Hashes.allowed req3.declaredHashes := by
  simp [effective_hashes, req_hashes, h, h2]

/-- C10: on the fresh-acquisition path the effective hash set is computed
with `trust_internet = not require_hashes`: when verification is mandatory
the set handed to the unpack step is built from the requirement's declared
hashes only (the sentinel when they are empty), never from the hash
embedded in the link's fragment; when verification is not mandatory the
fragment hash is included. -/
theorem c10_trust_internet_negation
    (self : RequirementPreparer) (resolver : Resolver) (env : Env)
    (req : Requirement) (l : Link)
    (hed : req.editable = false) (hsb : req.satisfied_by = none)
    (hskip : env.skipSatisfiedBy = none)
    (hsetup : env.setupPyExists = false)
    (hlink : req.link = none) (hfound : env.found_link = some l)
    (hno1 : (resolver.require_hashes && is_vcs_url l) = false)
    (hno2 : (resolver.require_hashes &&
      (is_file_url l && is_dir_url l)) = false)
    (hno3 : (resolver.require_hashes && req.original_link.isNone &&
      !req.is_pinned) = false) :
    (resolver.require_hashes = true → req.declaredHashes = [] →
      Effect.unpack l (resolved_download_dir self l)
          (resolved_autodelete self l) Hashes.missingSentinel ∈
        (prepare_requirement self resolver env req).effects) ∧
    (resolver.require_hashes = true → req.declaredHashes ≠ [] →
      Effect.unpack l (resolved_download_dir self l)
          (resolved_autodelete self l) (Hashes.allowed req.declaredHashes) ∈
        (prepare_requirement self resolver env req).effects) ∧
    (resolver.require_hashes = false →
      Effect.unpack l (resolved_download_dir self l)
          (resolved_autodelete self l)
          (Hashes.allowed (req.declaredHashes ++
            (match l.fragmentHash with
             | some h => [h]
             | none => []))) ∈
        (prepare_requirement self resolver env req).effects) := by
  rw [prepare_requirement_fresh self resolver env req hed hsb hskip]
  refine ⟨?_, ?_, ?_⟩
  · intro hrh hdh
    rw [hrh] at hno1 hno2 hno3
    simp only [Bool.true_and] at hno1 hno2 hno3
    cases hsd : req.source_dir <;>
      simp [prepare_fresh, unpack_stage, ensure_has_source_dir, hsetup,
        hlink, hfound, hrh, hsd, hno1, hno2, hno3,
        effective_hashes_required_empty, hdh]
  · intro hrh hdh
    rw [hrh] at hno1 hno2 hno3
    simp only [Bool.true_and] at hno1 hno2 hno3
    cases hsd : req.source_dir <;>
      simp [prepare_fresh, unpack_stage, ensure_has_source_dir, hsetup,
        hlink, hfound, hrh, hsd, hno1, hno2, hno3,
        effective_hashes_required_nonempty, hdh]
  · intro hrh
    cases hsd : req.source_dir <;>
      simp [prepare_fresh, unpack_stage, ensure_has_source_dir, req_hashes,
        hsetup, hlink, hfound, hrh, hsd, effective_hashes_not_required]

/-- Witness for C10 at a concrete requirement whose link carries a
fragment hash while verification is mandatory: the sentinel, not the
fragment hash, reaches the unpack step. -/
theorem c10_witness :
    sampleReq.declaredHashes = [] ∧ fragLink.fragmentHash = some "fh" ∧
    Effect.unpack fragLink (resolved_download_dir samplePreparer fragLink)
        (resolved_autodelete samplePreparer fragLink)
        Hashes.missingSentinel ∈
      (prepare_requirement samplePreparer
        { sampleResolver with require_hashes := true } fragEnv
        sampleReq).effects :=
  ⟨rfl, rfl,
   (c10_trust_internet_negation samplePreparer
      { sampleResolver with require_hashes := true } fragEnv
      sampleReq fragLink rfl rfl rfl rfl rfl rfl rfl rfl rfl).1 rfl rfl⟩

/-- C9: for a Wheel-backed abstraction, `dist` returns the distribution
found in the unpacked wheel directory when exactly one is there, and
`prep_for_dist` is a no-op: it performs no effect and raises no error. -/
theorem c9_wheel_abstraction
    (found : List Distribution) (d : Distribution) (req : Requirement)
    (env : Env) (h : found = [d]) :
    isWheelDist found = Except.ok d ∧
    prep_for_dist DistAbstraction.IsWheel req env = ([], none) := by
  subst h
  exact ⟨rfl, rfl⟩

/-- Witness for C9 at a concrete singleton distribution list. -/
theorem c9_witness :
    [sampleDist] = [sampleDist] ∧
    (isWheelDist [sampleDist] = Except.ok sampleDist ∧
     prep_for_dist DistAbstraction.IsWheel sampleReq sampleEnv =
       ([], none)) :=
  ⟨rfl, c9_wheel_abstraction [sampleDist] sampleDist sampleReq sampleEnv rfl⟩


/-- On the fresh-acquisition path, once the stale-build guard and the
hash-feasibility checks pass, `prepare_fresh` is exactly the unpack stage
run on the requirement with its source directory ensured and its link
populated. -/
theorem prepare_fresh_to_unpack_stage (self : RequirementPreparer)
    (resolver : Resolver) (env : Env) (req : Requirement) (l : Link)
    (hsetup : env.setupPyExists = false)
    (hlink : req.link = none) (hfound : env.found_link = some l)
    (hno1 : (resolver.require_hashes && is_vcs_url l) = false)
    (hno2 : (resolver.require_hashes &&
      (is_file_url l && is_dir_url l)) = false)
    (hno3 : (resolver.require_hashes && req.original_link.isNone &&
      !req.is_pinned) = false) :
    prepare_fresh self resolver env req =
      unpack_stage self resolver env
        { req with
           source_dir := some (req.source_dir.getD env.newSourceDir)
           link := some l } l := by
  cases hrh : resolver.require_hashes <;> rw [hrh] at hno1 hno2 hno3 <;>
    simp only [Bool.true_and, Bool.false_and] at hno1 hno2 hno3 <;>
    cases hsd : req.source_dir <;>
    cases hol : req.original_link <;> cases hp : req.is_pinned <;>
    cases hfu : is_file_url l <;>
    simp_all [prepare_fresh, ensure_has_source_dir]

/-- C4: when the post-unpack installed-state re-check finds a matching
installed distribution, `should_modify = (upgrade_strategy !=
"to-satisfy-only" or ignore_installed)`; if it holds, `satisfied_by` is
cleared in every case, `conflicts_with` is set to the previously installed
distribution unless the user-site scope guard fires, and the returned
abstraction is backed by the freshly unpacked content; if it does not
hold, neither field is mutated by the conflict step (`satisfied_by` keeps
the value the re-check stored, `conflicts_with` is untouched). -/
theorem c4_conflict_resolution
    (self : RequirementPreparer) (resolver : Resolver) (env : Env)
    (req : Requirement) (l : Link) (d : Distribution)
    (hed : req.editable = false) (hsb : req.satisfied_by = none)
    (hskip : env.skipSatisfiedBy = none)
    (hsetup : env.setupPyExists = false)
    (hlink : req.link = none) (hfound : env.found_link = some l)
    (hno1 : (resolver.require_hashes && is_vcs_url l) = false)
    (hno2 : (resolver.require_hashes &&
      (is_file_url l && is_dir_url l)) = false)
    (hno3 : (resolver.require_hashes && req.original_link.isNone &&
      !req.is_pinned) = false)
    (hok : unpack_url (effective_hashes resolver
      { req with
         source_dir := some (req.source_dir.getD env.newSourceDir)
         link := some l }) env = Except.ok ())
    (hsmv : env.sourceMatchesVersion = true)
    (hdds : env.downloadDirExists = true)
    (hii : resolver.ignore_installed = false)
    (hex : env.existingDist = some d) :
    (resolver.upgrade_strategy ≠ "to-satisfy-only" ∨
        resolver.ignore_installed = true →
      ((prepare_requirement self resolver env req).req.satisfied_by = none ∧
       (¬(resolver.use_user_site = true ∧ d.inUsersite = false) →
         (prepare_requirement self resolver env req).req.conflicts_with =
           some d) ∧
       (prepare_requirement self resolver env req).result =
         Except.ok (if l.is_wheel then DistAbstraction.IsWheel
           else DistAbstraction.IsSDist))) ∧
    (resolver.upgrade_strategy = "to-satisfy-only" ∧
        resolver.ignore_installed = false →
      ((prepare_requirement self resolver env req).req.satisfied_by =
         some d ∧
       (prepare_requirement self resolver env req).req.conflicts_with =
         req.conflicts_with ∧
       (prepare_requirement self resolver env req).result =
         Except.ok (if l.is_wheel then DistAbstraction.IsWheel
           else DistAbstraction.IsSDist))) := by
  rw [prepare_requirement_fresh self resolver env req hed hsb hskip,
    prepare_fresh_to_unpack_stage self resolver env req l hsetup hlink
      hfound hno1 hno2 hno3]
  cases hdd : self.download_dir <;> cases hw : l.is_wheel <;>
    cases huus : resolver.use_user_site <;> cases hdi : d.inUsersite <;>
    cases hus : decide (resolver.upgrade_strategy = "to-satisfy-only") <;>
    simp_all [unpack_stage, fresh_post_unpack, prep_for_dist,
      make_abstract_dist, download_should_save, dist_in_usersite, hok]

/-- Witness for C4 at a concrete eager upgrade superseding an installed
distribution. -/
theorem c4_witness :
    ({ sampleResolver with upgrade_strategy := "eager" } :
      Resolver).upgrade_strategy ≠ "to-satisfy-only" ∧
    ((prepare_requirement samplePreparer
        { sampleResolver with upgrade_strategy := "eager" }
        { sampleEnv with
           existingDist := some sampleDist
           downloadDirExists := true } sampleReq).req.satisfied_by = none ∧
     (¬(({ sampleResolver with upgrade_strategy := "eager" } :
          Resolver).use_user_site = true ∧ sampleDist.inUsersite = false) →
       (prepare_requirement samplePreparer
        { sampleResolver with upgrade_strategy := "eager" }
        { sampleEnv with
           existingDist := some sampleDist
           downloadDirExists := true } sampleReq).req.conflicts_with =
         some sampleDist) ∧
     (prepare_requirement samplePreparer
        { sampleResolver with upgrade_strategy := "eager" }
        { sampleEnv with
           existingDist := some sampleDist
           downloadDirExists := true } sampleReq).result =
       Except.ok (if sdistLink.is_wheel then DistAbstraction.IsWheel
         else DistAbstraction.IsSDist)) :=
  ⟨by decide,
   (c4_conflict_resolution samplePreparer
      { sampleResolver with upgrade_strategy := "eager" }
      { sampleEnv with
         existingDist := some sampleDist
         downloadDirExists := true } sampleReq sdistLink sampleDist
      rfl rfl rfl rfl rfl rfl rfl rfl rfl rfl rfl rfl rfl rfl).1
     (Or.inl (by decide))⟩

/-- C5: when the matching installed distribution is system-wide while the
requested install is user-site, `conflicts_with` stays unchanged even
though `should_modify` holds; only `satisfied_by` is cleared. -/
theorem c5_user_site_scope_guard
    (self : RequirementPreparer) (resolver : Resolver) (env : Env)
    (req : Requirement) (l : Link) (d : Distribution)
    (hed : req.editable = false) (hsb : req.satisfied_by = none)
    (hskip : env.skipSatisfiedBy = none)
    (hsetup : env.setupPyExists = false)
    (hlink : req.link = none) (hfound : env.found_link = some l)
    (hno1 : (resolver.require_hashes && is_vcs_url l) = false)
    (hno2 : (resolver.require_hashes &&
      (is_file_url l && is_dir_url l)) = false)
    (hno3 : (resolver.require_hashes && req.original_link.isNone &&
      !req.is_pinned) = false)
    (hok : unpack_url (effective_hashes resolver
      { req with
         source_dir := some (req.source_dir.getD env.newSourceDir)
         link := some l }) env = Except.ok ())
    (hsmv : env.sourceMatchesVersion = true)
    (hdds : env.downloadDirExists = true)
    (hii : resolver.ignore_installed = false)
    (hex : env.existingDist = some d)
    (huus : resolver.use_user_site = true) (hdi : d.inUsersite = false)
    (hsm : resolver.upgrade_strategy ≠ "to-satisfy-only") :
    (prepare_requirement self resolver env req).req.conflicts_with =
      req.conflicts_with ∧
    (prepare_requirement self resolver env req).req.satisfied_by = none := by
  rw [prepare_requirement_fresh self resolver env req hed hsb hskip,
    prepare_fresh_to_unpack_stage self resolver env req l hsetup hlink
      hfound hno1 hno2 hno3]
  cases hdd : self.download_dir <;> cases hw : l.is_wheel <;>
    simp_all [unpack_stage, fresh_post_unpack, prep_for_dist,
      make_abstract_dist, download_should_save, dist_in_usersite, hok]

/-- Witness for C5 at a concrete user-site install over a system-wide
installed distribution. -/
theorem c5_witness :
    sampleDist.inUsersite = false ∧
    ((prepare_requirement samplePreparer
        { sampleResolver with
           upgrade_strategy := "eager"
           use_user_site := true }
        { sampleEnv with
           existingDist := some sampleDist
           downloadDirExists := true } sampleReq).req.conflicts_with =
      sampleReq.conflicts_with ∧
     (prepare_requirement samplePreparer
        { sampleResolver with
           upgrade_strategy := "eager"
           use_user_site := true }
        { sampleEnv with
           existingDist := some sampleDist
           downloadDirExists := true } sampleReq).req.satisfied_by =
       none) :=
  ⟨rfl,
   c5_user_site_scope_guard samplePreparer
     { sampleResolver with
        upgrade_strategy := "eager"
        use_user_site := true }
     { sampleEnv with
        existingDist := some sampleDist
        downloadDirExists := true } sampleReq sdistLink sampleDist
     rfl rfl rfl rfl rfl rfl rfl rfl rfl rfl rfl rfl rfl rfl rfl rfl
     (by decide)⟩


/-- C7 counterexample: at a concrete sdist requirement with the general
download directory configured and existing (retention requested and
honoured), the unpack call still has `autodelete_unpacked = true` — the
claim predicts the unpacked content would not be auto-deleted in this
case, i.e. an unpack call with `autodelete_unpacked = false`, and no such
call occurs. -/
theorem c7_counterexample :
    dlPreparer.download_dir = some "dl" ∧
    dlEnv.downloadDirExists = true ∧
    sdistLink.is_wheel = false ∧
    (prepare_requirement dlPreparer sampleResolver dlEnv sampleReq).effects =
      [Effect.ensureSourceDir "build", Effect.populateLink,
       Effect.unpack sdistLink (some "dl") true (Hashes.allowed []),
       Effect.runEggInfo, Effect.checkIfExists] ∧
    Effect.unpack sdistLink (some "dl") false (Hashes.allowed []) ∉
      (prepare_requirement dlPreparer sampleResolver dlEnv sampleReq).effects
    := by
  refine ⟨rfl, rfl, rfl, by decide, by decide⟩

/-- C7 as amended: the destination/retention step passes `unpack_url` the
resolved download directory and retention flag, where a wheel with a
configured wheel-download directory uses that directory instead of the
general one (and otherwise the general one), an sdist's unpacked content
is always auto-deleted after unpacking, a wheel downloading for caching
(some resolved download directory) is auto-deleted, and a wheel being
installed directly (no resolved download directory) is kept unpacked. -/
theorem c7_destination_retention
    (self : RequirementPreparer) (resolver : Resolver) (env : Env)
    (req : Requirement) (l : Link)
    (hed : req.editable = false) (hsb : req.satisfied_by = none)
    (hskip : env.skipSatisfiedBy = none)
    (hsetup : env.setupPyExists = false)
    (hlink : req.link = none) (hfound : env.found_link = some l)
    (hno1 : (resolver.require_hashes && is_vcs_url l) = false)
    (hno2 : (resolver.require_hashes &&
      (is_file_url l && is_dir_url l)) = false)
    (hno3 : (resolver.require_hashes && req.original_link.isNone &&
      !req.is_pinned) = false) :
    Effect.unpack l (resolved_download_dir self l)
        (resolved_autodelete self l)
        (effective_hashes resolver
          { req with
             source_dir := some (req.source_dir.getD env.newSourceDir)
             link := some l }) ∈
      (prepare_requirement self resolver env req).effects ∧
    (l.is_wheel = true → self.wheel_download_dir.isSome = true →
      resolved_download_dir self l = self.wheel_download_dir) ∧
    (l.is_wheel = true → self.wheel_download_dir.isSome = false →
      resolved_download_dir self l = self.download_dir) ∧
    (l.is_wheel = false → resolved_download_dir self l = self.download_dir ∧
      resolved_autodelete self l = true) ∧
    (l.is_wheel = true → (resolved_download_dir self l).isSome = true →
      resolved_autodelete self l = true) ∧
    (l.is_wheel = true → resolved_download_dir self l = none →
      resolved_autodelete self l = false) := by
  rw [prepare_requirement_fresh self resolver env req hed hsb hskip,
    prepare_fresh_to_unpack_stage self resolver env req l hsetup hlink
      hfound hno1 hno2 hno3]
  refine ⟨?_, ?_, ?_, ?_, ?_, ?_⟩
  · simp [unpack_stage]
  · intro hw hwd
    simp [resolved_download_dir, hw, hwd]
  · intro hw hwd
    simp [resolved_download_dir, hw, hwd]
  · intro hw
    simp [resolved_download_dir, resolved_autodelete, hw]
  · intro hw hdd
    simp [resolved_autodelete, hw, hdd]
  · intro hw hdd
    simp [resolved_autodelete, hw, hdd]

/-- Witness for the amended C7 at a concrete sdist requirement with a
configured, existing download directory. -/
theorem c7_witness :
    sdistLink.is_wheel = false ∧
    (Effect.unpack sdistLink (resolved_download_dir dlPreparer sdistLink)
        (resolved_autodelete dlPreparer sdistLink)
        (effective_hashes sampleResolver
          { sampleReq with
             source_dir := some (sampleReq.source_dir.getD
               dlEnv.newSourceDir)
             link := some sdistLink }) ∈
      (prepare_requirement dlPreparer sampleResolver dlEnv
        sampleReq).effects) ∧
    (resolved_download_dir dlPreparer sdistLink = dlPreparer.download_dir ∧
     resolved_autodelete dlPreparer sdistLink = true) :=
  ⟨rfl,
   (c7_destination_retention dlPreparer sampleResolver dlEnv sampleReq
      sdistLink rfl rfl rfl rfl rfl rfl rfl rfl rfl).1,
   (c7_destination_retention dlPreparer sampleResolver dlEnv sampleReq
      sdistLink rfl rfl rfl rfl rfl rfl rfl rfl rfl).2.2.2.1 rfl⟩

end PipPrepare
